import Mathlib

/-!
Shallow embedding of the secure file-editing agent
(`src/secure_openrouter_agent.py`, class `SecureFileEditingAgent`).

Paths are modelled as lists of components of the canonical (resolved)
filesystem path; the OS-level resolution performed by `pathlib.Path.resolve`
(working-directory joining, symlink following, `.`/`..` collapsing) is
abstracted as a total function `resolve : String → Path` handed to each
operation, since its behaviour is decided by the host filesystem, not by the
program.  The filesystem itself is an association list from canonical paths
to entries (regular files with string content, or directories).  Python
string primitives used by the code (`in`, `str.count`, `str.replace`,
`readlines`, list slicing, `str.lower`, `str.split`) are embedded as
executable Lean functions with Python's exact semantics on the inputs the
program feeds them.
-/

namespace SecureAgent

/-- A canonical absolute filesystem path, as its list of components
(`/ws/a.txt` is `["ws", "a.txt"]`). -/
abbrev Path := List String

/-- A filesystem entry: a regular file with its text content, or a directory. -/
inductive FsEntry where
  | file (content : String)
  | dir
deriving DecidableEq

/-- The filesystem: an association list from canonical paths to entries. -/
abbrev Fs := List (Path × FsEntry)

/-- Look up the entry stored at canonical path `p`. -/
def lookupFs : Fs → Path → Option FsEntry
  | [], _ => none
  | (q, e) :: rest, p => if q = p then some e else lookupFs rest p

/-- Remove the entry at canonical path `p` (models `Path.unlink`). -/
def eraseFs : Fs → Path → Fs
  | [], _ => []
  | (q, e) :: rest, p => if q = p then eraseFs rest p else (q, e) :: eraseFs rest p

/-- Create or overwrite the entry at canonical path `p`
(models `open(path, "w")` / `shutil.copy2` to `p` / `mkdir`). -/
def setFs (fs : Fs) (p : Path) (e : FsEntry) : Fs :=
  (p, e) :: eraseFs fs p

/-- Python's substring test `pat in s`, on character lists. -/
def listContainsSub : List Char → List Char → Bool
  | [], pat => pat.isEmpty
  | c :: rest, pat => pat.isPrefixOf (c :: rest) || listContainsSub rest pat

/-- Python's substring test `pat in s`, on strings. -/
def strContains (s pat : String) : Bool :=
  listContainsSub s.data pat.data

/-- Fuel-driven core of Python's `s.count(pat)` for non-empty `pat`:
scan left to right, counting non-overlapping matches. -/
def countOccFuel (pat : List Char) : Nat → List Char → Nat
  | 0, _ => 0
  | _ + 1, [] => 0
  | fuel + 1, c :: rest =>
    if pat.isPrefixOf (c :: rest) then
      1 + countOccFuel pat fuel ((c :: rest).drop pat.length)
    else
      countOccFuel pat fuel rest

/-- Python's `s.count(pat)` on character lists: the number of
non-overlapping occurrences, with `s.count("") = len(s) + 1`. -/
def pyCount (pat s : List Char) : Nat :=
  if pat = [] then s.length + 1 else countOccFuel pat s.length s

/-- Python's `s.count(pat)` on strings. -/
def pyCountStr (pat s : String) : Nat :=
  pyCount pat.data s.data

/-- Fuel-driven core of Python's `s.replace(pat, new)`: replace every
non-overlapping occurrence, scanning left to right. -/
def pyReplaceFuel (pat new : List Char) : Nat → List Char → List Char
  | 0, s => s
  | _ + 1, [] => if pat = [] then new else []
  | fuel + 1, c :: rest =>
    if pat = [] then new ++ c :: pyReplaceFuel pat new fuel rest
    else if pat.isPrefixOf (c :: rest) then
      new ++ pyReplaceFuel pat new fuel ((c :: rest).drop pat.length)
    else
      c :: pyReplaceFuel pat new fuel rest

/-- Python's `s.replace(pat, new)` on strings. -/
def pyReplaceStr (pat new s : String) : String :=
  ⟨pyReplaceFuel pat.data new.data (s.data.length + 1) s.data⟩

/-- Helper for `pyReadlinesStr`: accumulate the current (reversed) line. -/
def readlinesAux (acc : List Char) : List Char → List (List Char)
  | [] => if acc = [] then [] else [acc.reverse]
  | c :: rest =>
    if c = '\n' then (acc.reverse ++ ['\n']) :: readlinesAux [] rest
    else readlinesAux (c :: acc) rest

/-- Python's `f.readlines()`: split into lines, each keeping its trailing
newline; a final fragment without a newline is kept as a last line. -/
def pyReadlinesStr (s : String) : List String :=
  (readlinesAux [] s.data).map (fun l => ⟨l⟩)

/-- Python list slicing `xs[a:b]` with possibly negative indices. -/
def pySlice {α : Type} (xs : List α) (a b : Int) : List α :=
  let n : Int := xs.length
  let lo : Int := if a < 0 then max (a + n) 0 else min a n
  let hi : Int := if b < 0 then max (b + n) 0 else min b n
  (xs.drop lo.toNat).take (hi - lo).toNat

/-- Python's `s.lower()` (ASCII case folding, which is all the denylist
patterns and the paths in this development exercise). -/
def pyLower (s : String) : String :=
  ⟨s.data.map Char.toLower⟩

/-- `len(s.split(sep="\n"))`, used by the replace tool to report line
counts: one more than the number of newline characters. -/
def pySplitLineCount (s : String) : Nat :=
  s.data.count '\n' + 1

/-- Render a canonical path the way `str(pathlib.Path)` prints it. -/
def pathRepr (p : Path) : String :=
  "/" ++ String.intercalate "/" p

/-- `pathlib.Path.name`: the final component. -/
def pathName (p : Path) : String :=
  p.getLastD ""

/-- `validated_path.with_suffix(validated_path.suffix + ".backup")`: the
sibling backup location, whose final component is the file's name with
`.backup` appended. -/
def backupPath (p : Path) : Path :=
  p.dropLast ++ [p.getLastD "" ++ ".backup"]

/-- The ancestor directories that `validated_path.parent.mkdir(parents=True,
exist_ok=True)` ensures exist: every prefix of the parent path. -/
def ancestorsOf (p : Path) : List Path :=
  p.dropLast.inits

/-- Whether canonical path `q` holds a regular file. -/
def isFileAt (fs : Fs) (q : Path) : Bool :=
  match lookupFs fs q with
  | some (.file _) => true
  | _ => false

/-- Create directory entries at every listed path not already present. -/
def mkdirParents (fs : Fs) (ds : List Path) : Fs :=
  ds.foldl (fun acc q => if (lookupFs acc q).isSome then acc else setFs acc q .dir) fs

/-- The exception classes distinguished by `_handle_file_error`. -/
inductive FileErr where
  | fileNotFound
  | permissionDenied
  | isADirectory
  | osError (msg : String)
  | security (msg : String)
  | unexpected (msg : String)
deriving DecidableEq

/-- `_handle_file_error`: format a structured error outcome string. -/
def handle_file_error (operation filePath : String) : FileErr → String
  | .fileNotFound =>
    "FileNotFoundError: Cannot " ++ operation ++ " '" ++ filePath ++ "' - file does not exist"
  | .permissionDenied =>
    "PermissionError: Cannot " ++ operation ++ " '" ++ filePath ++ "' - insufficient permissions"
  | .isADirectory =>
    "IsADirectoryError: Cannot " ++ operation ++ " '" ++ filePath ++ "' - path is a directory"
  | .osError m =>
    "OSError: Cannot " ++ operation ++ " '" ++ filePath ++ "' - " ++ m
  | .security m =>
    "SecurityError: Cannot " ++ operation ++ " '" ++ filePath ++ "' - " ++ m
  | .unexpected m =>
    "UnexpectedError: Cannot " ++ operation ++ " '" ++ filePath ++ "' - " ++ m

/-- The fixed denylist scanned by `_validate_file_path`, in source order. -/
def dangerousPatterns : List String :=
  ["../", "/etc/", "/usr/", "/var/", "/root/", "/home/", "passwd", "shadow", "hosts", ".ssh/"]

/-- The denylist scan of `_validate_file_path`: the first pattern of
`dangerousPatterns` contained in the lower-cased original path string, where
`../` only counts when `.env.local` does not also appear. -/
def denyCheck (filePath : String) : Option String :=
  let originalPathStr := pyLower filePath
  dangerousPatterns.find? fun pattern =>
    strContains originalPathStr pattern &&
      (if pattern = "../" then !(strContains originalPathStr ".env.local") else true)

/-- `_validate_file_path`: resolve the raw string to its canonical path,
reject it unless the workspace root's components are a prefix of the
canonical path's components (`Path.relative_to`), then reject it if the
original string matches the denylist.  The error value is the message
carried by the raised `SecurityError`. -/
def outsideWorkspaceMsg (filePath : String) (root : Path) : String :=
  "Path '" ++ filePath ++ "' is outside the allowed workspace: " ++ pathRepr root

def dangerousPatternMsg (pattern : String) : String :=
  "Path contains potentially dangerous pattern: " ++ pattern

def validate_file_path (resolve : String → Path) (root : Path) (filePath : String) :
    Except String Path :=
  let path := resolve filePath
  if root.isPrefixOf path then
    match denyCheck filePath with
    | some pattern => .error (dangerousPatternMsg pattern)
    | none => .ok path
  else
    .error (outsideWorkspaceMsg filePath root)

/-- How Python's f-string prints an `Optional[int]`. -/
def optIntStr : Option Int → String
  | none => "None"
  | some i => toString i

/-- The range error returned for a bad `start_line`. -/
def startRangeMsg (startLine : Option Int) (totalLines : Nat) : String :=
  "Error: Start line " ++ optIntStr startLine ++ " out of range. File has "
    ++ toString totalLines ++ " lines."

/-- The range error returned for a bad `end_line`. -/
def endRangeMsg (endLine : Option Int) (totalLines : Nat) : String :=
  "Error: End line " ++ optIntStr endLine ++ " out of range. File has "
    ++ toString totalLines ++ " lines."

/-- The success message of `read_file_tool`. -/
def readSuccessMsg (name : String) (lines : List String) : String :=
  "Successfully read " ++ name ++ " (" ++ toString lines.length ++ " lines)\nContent:\n"
    ++ String.join lines

/-- `read_file_tool`: validate the path, require an existing regular file,
read its lines, and apply the optional 1-based line range; Python truthiness
makes a bound of `0` behave as if the bound were omitted.  Reading never
mutates the filesystem, so only the outcome string is returned. -/
def read_file_tool (resolve : String → Path) (root : Path) (fs : Fs) (filePath : String)
    (startLine endLine : Option Int) : String :=
  match validate_file_path resolve root filePath with
  | .error e => handle_file_error "read" filePath (.security e)
  | .ok validatedPath =>
    match lookupFs fs validatedPath with
    | none => handle_file_error "read" filePath .fileNotFound
    | some .dir => handle_file_error "read" filePath .isADirectory
    | some (.file content) =>
      let lines := pyReadlinesStr content
      if startLine.isNone && endLine.isNone then
        readSuccessMsg (pathName validatedPath) lines
      else
        let totalLines := lines.length
        let startIdx : Int := match startLine with
          | none => 0
          | some s => if s = 0 then 0 else s - 1
        let endIdx : Int := match endLine with
          | none => (totalLines : Int)
          | some e => if e = 0 then (totalLines : Int) else e
        if startIdx < 0 ∨ (totalLines : Int) ≤ startIdx then
          startRangeMsg startLine totalLines
        else if (totalLines : Int) < endIdx then
          endRangeMsg endLine totalLines
        else
          readSuccessMsg (pathName validatedPath) (pySlice lines startIdx endIdx)

/-- The error returned when `create_file_tool` finds the target present. -/
def createExistsMsg (filePath : String) : String :=
  "Error: File '" ++ filePath ++ "' already exists. Use replace_content to modify existing files."

/-- The success message of `create_file_tool`. -/
def createSuccessMsg (name content : String) : String :=
  "Successfully created file '" ++ name ++ "' with " ++ toString content.length ++ " characters"

/-- `create_file_tool`: validate the path, fail if the target exists, create
the missing parent directories, and write the content to the new file.  If an
ancestor of the target is a regular file, `mkdir` raises `NotADirectoryError`
(an `OSError`); its OS-supplied text is modelled by the fixed errno string. -/
def create_file_tool (resolve : String → Path) (root : Path) (fs : Fs) (filePath content : String) :
    String × Fs :=
  match validate_file_path resolve root filePath with
  | .error e => (handle_file_error "create" filePath (.security e), fs)
  | .ok validatedPath =>
    if (lookupFs fs validatedPath).isSome then
      (createExistsMsg filePath, fs)
    else if (ancestorsOf validatedPath).any (isFileAt fs) then
      (handle_file_error "create" filePath (.osError "Not a directory"), fs)
    else
      (createSuccessMsg (pathName validatedPath) content,
        setFs (mkdirParents fs (ancestorsOf validatedPath)) validatedPath (.file content))

/-- The error returned when the text to replace is absent. -/
def replaceNotFoundMsg (filePath : String) : String :=
  "Error: The specified text to replace was not found in '" ++ filePath
    ++ "'. Please check the exact text including whitespace and indentation."

/-- The error returned when the text to replace occurs more than once. -/
def replaceAmbiguousMsg (filePath : String) (occurrenceCount : Nat) : String :=
  "Error: Found " ++ toString occurrenceCount ++ " occurrences of the text to replace in '"
    ++ filePath ++ "'. Please provide more specific context to ensure unique replacement."

/-- The success message of `replace_content_tool`. -/
def replaceSuccessMsg (name oldString newString backupName : String) : String :=
  "Successfully replaced content in '" ++ name ++ "'. Changed "
    ++ toString (pySplitLineCount oldString) ++ " lines to "
    ++ toString (pySplitLineCount newString) ++ " lines. Backup created at '"
    ++ backupName ++ "'."

/-- `replace_content_tool`: validate the path, require an existing regular
file, require `old_string` to be present and to occur exactly once, copy the
file to its `.backup` sibling, then write the substituted content.  The write
step may be forced to fail (fault injection): `writeResult = some err` models
the write raising exception `err` after leaving `leftoverContent` in the
file, upon which the code restores the original from the backup, unlinks the
backup, and re-raises into `_handle_file_error`. -/
def replace_content_tool (resolve : String → Path) (root : Path) (fs : Fs)
    (filePath oldString newString : String)
    (writeResult : Option FileErr) (leftoverContent : String) : String × Fs :=
  match validate_file_path resolve root filePath with
  | .error e => (handle_file_error "replace content in" filePath (.security e), fs)
  | .ok validatedPath =>
    match lookupFs fs validatedPath with
    | none => (handle_file_error "replace content in" filePath .fileNotFound, fs)
    | some .dir => (handle_file_error "replace content in" filePath .isADirectory, fs)
    | some (.file originalContent) =>
      if strContains originalContent oldString = false then
        (replaceNotFoundMsg filePath, fs)
      else
        let occurrenceCount := pyCountStr oldString originalContent
        if 1 < occurrenceCount then
          (replaceAmbiguousMsg filePath occurrenceCount, fs)
        else
          let backup := backupPath validatedPath
          let fsBackedUp := setFs fs backup (.file originalContent)
          let newContent := pyReplaceStr oldString newString originalContent
          match writeResult with
          | none =>
            (replaceSuccessMsg (pathName validatedPath) oldString newString (pathName backup),
              setFs fsBackedUp validatedPath (.file newContent))
          | some err =>
            let fsFailed := setFs fsBackedUp validatedPath (.file leftoverContent)
            let fsRestored := setFs fsFailed validatedPath (.file originalContent)
            (handle_file_error "replace content in" filePath err, eraseFs fsRestored backup)

/-- Parsed tool-call arguments (the result of `json.loads` on the call's
argument string, keyword-bound to the tool's signature). -/
inductive ToolArgs where
  | readFileArgs (filePath : String) (startLine endLine : Option Int)
  | createFileArgs (filePath content : String)
  | replaceContentArgs (filePath oldString newString : String)

/-- A structured tool call returned by the external reasoning call. -/
structure ToolCall where
  id : String
  name : String
  args : ToolArgs

/-- The assistant turn returned by one external reasoning call: its text
content and its (possibly empty) list of tool calls. -/
structure ModelResponse where
  content : String
  toolCalls : List ToolCall

/-- Conversation roles. -/
inductive Role where
  | system
  | user
  | assistant
  | tool
deriving DecidableEq

/-- One entry of `conversation_history`. -/
structure Msg where
  role : Role
  content : String
  toolCalls : List ToolCall
  toolCallId : Option String
  toolName : Option String

/-- The message listing the registry's valid tool names, returned for an
unknown tool name. -/
def unknownToolMsg (toolName : String) : String :=
  "SecurityError: Unknown tool '" ++ toolName
    ++ "'. Available tools: ['read_file', 'create_file', 'replace_content']"

/-- `execute_tool`: dispatch a tool name to its primitive; an unknown name
yields the security outcome listing the valid names.  The write step is not
fault-injected during dispatch (normal operation). -/
def execute_tool (resolve : String → Path) (root : Path) (fs : Fs)
    (toolName : String) (args : ToolArgs) : String × Fs :=
  match toolName, args with
  | "read_file", .readFileArgs fp s e => (read_file_tool resolve root fs fp s e, fs)
  | "create_file", .createFileArgs fp c => create_file_tool resolve root fs fp c
  | "replace_content", .replaceContentArgs fp o n =>
    replace_content_tool resolve root fs fp o n none ""
  | other, _ => (unknownToolMsg other, fs)

/-- Dispatch the tool calls of one assistant turn in order, appending one
tool-result message per call. -/
def execCalls (resolve : String → Path) (root : Path) :
    List ToolCall → List Msg → Fs → List Msg × Fs
  | [], history, fs => (history, fs)
  | tc :: rest, history, fs =>
    let r := execute_tool resolve root fs tc.name tc.args
    execCalls resolve root rest
      (history ++ [⟨Role.tool, r.1, [], some tc.id, some tc.name⟩]) r.2

/-- The system prompt installed on first use, describing the workspace. -/
def systemPromptText (root : Path) : String :=
  "You are a secure file editing assistant with access to a limited, safe set of file operations. Your workspace is restricted to: "
    ++ pathRepr root
    ++ "\n\nIMPORTANT SECURITY GUIDELINES:\n1. You can only access files within the designated workspace\n2. Always read files first to understand their structure before making changes\n3. Use replace_content for surgical edits - it's safer than rewriting entire files\n4. The replace_content tool requires EXACT string matching including whitespace and indentation\n5. When fixing indentation, include surrounding lines for context to ensure unique matches\n6. Create backups automatically - they're created for you during replace operations\n\nAVAILABLE TOOLS:\n- read_file: Read file contents (with optional line ranges)\n- create_file: Create new files (fails if file exists to prevent overwrites)\n- replace_content: Surgically replace specific text (the safe way to edit)\n\nWORKFLOW FOR EDITS:\n1. Read the file to understand current content\n2. Identify the exact text block to change (including surrounding context)\n3. Use replace_content with the exact old text and desired new text\n4. Verify the change was successful\n\nAlways be precise with whitespace and indentation when using replace_content."

/-- The terminal message when the iteration ceiling is exhausted. -/
def maxIterationsMsg (maxIterations : Nat) : String :=
  "Maximum iterations (" ++ toString maxIterations ++ ") reached"

/-- The conversation history at loop entry: the system turn is prepended
exactly once (when the history is empty), then the user turn is appended. -/
def initialHistory (root : Path) (conversationHistory : List Msg) (userMessage : String) :
    List Msg :=
  (if conversationHistory.isEmpty then [⟨Role.system, systemPromptText root, [], none, none⟩]
   else conversationHistory)
    ++ [⟨Role.user, userMessage, [], none, none⟩]

/-- The bounded `while iteration_count < max_iterations` loop of `chat`:
`fuel` is the number of iterations still allowed and `count` the number
already performed; each iteration invokes the external reasoning call
`respond` on the accumulated history, appends the assistant turn, and either
returns its content (no tool calls) or dispatches the calls and loops.
Returns the outcome string, the iteration count at exit, and the final
history and filesystem. -/
def chatLoop (respond : List Msg → ModelResponse) (resolve : String → Path) (root : Path)
    (maxIterations : Nat) : Nat → Nat → List Msg → Fs → String × Nat × List Msg × Fs
  | 0, count, history, fs => (maxIterationsMsg maxIterations, count, history, fs)
  | fuel + 1, count, history, fs =>
    let r := respond history
    let history1 := history ++ [⟨Role.assistant, r.content, r.toolCalls, none, none⟩]
    if r.toolCalls.isEmpty then (r.content, count + 1, history1, fs)
    else
      let hf := execCalls resolve root r.toolCalls history1 fs
      chatLoop respond resolve root maxIterations fuel (count + 1) hf.1 hf.2

/-- `chat`: install the system and user turns and run the bounded loop with
the configured iteration ceiling (the source default is `10`). -/
def chat (respond : List Msg → ModelResponse) (resolve : String → Path) (root : Path)
    (fs : Fs) (conversationHistory : List Msg) (userMessage : String) (maxIterations : Nat) :
    String × Nat × List Msg × Fs :=
  chatLoop respond resolve root maxIterations maxIterations 0
    (initialHistory root conversationHistory userMessage) fs

/-! ### Supporting lemmas -/

theorem lookupFs_eraseFs_ne (p q : Path) (hq : q ≠ p) :
    ∀ fs : Fs, lookupFs (eraseFs fs p) q = lookupFs fs q := by
  intro fs
  induction fs with
  | nil => rfl
  | cons head rest ih =>
    obtain ⟨a, e⟩ := head
    have hpq : ¬ p = q := fun h => hq h.symm
    by_cases hap : a = p
    · have haq : ¬ a = q := fun h => hq (by rw [← h]; exact hap)
      simp [eraseFs, hap, lookupFs, haq, hpq, ih]
    · by_cases haq : a = q
      · simp [eraseFs, hap, lookupFs, haq, fun h : q = p => hq h]
      · simp [eraseFs, hap, lookupFs, haq, ih]

theorem lookupFs_eraseFs_self (p : Path) :
    ∀ fs : Fs, lookupFs (eraseFs fs p) p = none := by
  intro fs
  induction fs with
  | nil => rfl
  | cons head rest ih =>
    obtain ⟨a, e⟩ := head
    by_cases hap : a = p
    · simp [eraseFs, hap, ih]
    · simp [eraseFs, hap, lookupFs, ih]

theorem lookupFs_setFs_self (fs : Fs) (p : Path) (e : FsEntry) :
    lookupFs (setFs fs p e) p = some e := by
  simp [setFs, lookupFs]

theorem lookupFs_setFs_ne (fs : Fs) (p q : Path) (e : FsEntry) (hq : q ≠ p) :
    lookupFs (setFs fs p e) q = lookupFs fs q := by
  have hpq : ¬ p = q := fun h => hq h.symm
  simp [setFs, lookupFs, hpq]
  exact lookupFs_eraseFs_ne p q hq fs

theorem backupPath_ne : ∀ p : Path, backupPath p ≠ p
  | [] => by simp [backupPath]
  | [a] => by
    simp only [backupPath, List.dropLast_single, List.getLastD_cons, List.getLastD_nil,
      List.nil_append, ne_eq, List.cons.injEq, and_true]
    intro h
    have hlen := congrArg String.length h
    rw [String.length_append] at hlen
    have : (".backup" : String).length = 7 := by decide
    omega
  | a :: b :: rest => by
    intro h
    have hstep : backupPath (a :: b :: rest) = a :: backupPath (b :: rest) := by
      simp [backupPath]
    rw [hstep] at h
    exact backupPath_ne (b :: rest) (List.cons.inj h).2

theorem listContainsSub_nil_pat : ∀ s : List Char, listContainsSub s [] = true := by
  intro s
  cases s <;> simp [listContainsSub, List.isPrefixOf]

theorem countOccFuel_eq_zero_iff (pat : List Char) (hpat : pat ≠ []) :
    ∀ (fuel : Nat) (s : List Char), s.length ≤ fuel →
      (countOccFuel pat fuel s = 0 ↔ listContainsSub s pat = false) := by
  intro fuel
  induction fuel with
  | zero =>
    intro s hs
    have hnil : s = [] := List.eq_nil_of_length_eq_zero (Nat.le_zero.mp hs)
    subst hnil
    simp [countOccFuel, listContainsSub, List.isEmpty_iff, hpat]
  | succ fuel ih =>
    intro s hs
    cases s with
    | nil => simp [countOccFuel, listContainsSub, List.isEmpty_iff, hpat]
    | cons c rest =>
      by_cases hpre : pat.isPrefixOf (c :: rest) = true
      · simp [countOccFuel, listContainsSub, hpre]
      · have hpre' : pat.isPrefixOf (c :: rest) = false := by
          cases hb : pat.isPrefixOf (c :: rest)
          · rfl
          · exact absurd hb hpre
        simp only [countOccFuel, listContainsSub, hpre', Bool.false_or, if_neg
          (by simp [hpre'] : ¬ pat.isPrefixOf (c :: rest) = true)]
        exact ih rest (by simpa using Nat.le_of_succ_le_succ hs)

theorem pyReplaceFuel_of_not_contains (pat new : List Char) (hpat : pat ≠ []) :
    ∀ (fuel : Nat) (s : List Char), listContainsSub s pat = false →
      pyReplaceFuel pat new fuel s = s := by
  intro fuel
  induction fuel with
  | zero => intro s _; rfl
  | succ fuel ih =>
    intro s hs
    cases s with
    | nil => simp [pyReplaceFuel, hpat]
    | cons c rest =>
      simp only [listContainsSub, Bool.or_eq_false_iff] at hs
      simp [pyReplaceFuel, hpat, hs.1, ih rest hs.2]

theorem countOccFuel_one_decomp (pat new : List Char) (hpat : pat ≠ []) :
    ∀ (fuel1 : Nat) (s : List Char), s.length ≤ fuel1 → countOccFuel pat fuel1 s = 1 →
      ∀ fuel2 : Nat, s.length < fuel2 →
        ∃ a b, s = a ++ pat ++ b ∧ pyReplaceFuel pat new fuel2 s = a ++ new ++ b := by
  intro fuel1
  induction fuel1 with
  | zero => intro s _ hcount; simp [countOccFuel] at hcount
  | succ fuel1 ih =>
    intro s hs hcount fuel2 hf2
    cases s with
    | nil => simp [countOccFuel] at hcount
    | cons c rest =>
      cases fuel2 with
      | zero => exact absurd hf2 (by simp)
      | succ fuel2 =>
        by_cases hpre : pat.isPrefixOf (c :: rest) = true
        · have hsplit : pat ++ List.drop pat.length (c :: rest) = c :: rest :=
            List.prefix_iff_eq_append.mp (List.isPrefixOf_iff_prefix.mp hpre)
          have hinner : countOccFuel pat fuel1 ((c :: rest).drop pat.length) = 0 := by
            have hc := hcount
            simp only [countOccFuel, hpre, if_pos] at hc
            omega
          have hlenpat : 1 ≤ pat.length := by
            cases pat with
            | nil => exact absurd rfl hpat
            | cons _ _ => simp
          have hdroplen : ((c :: rest).drop pat.length).length ≤ fuel1 := by
            simp only [List.length_drop, List.length_cons]
            simp only [List.length_cons] at hs
            omega
          have hnc : listContainsSub ((c :: rest).drop pat.length) pat = false :=
            (countOccFuel_eq_zero_iff pat hpat fuel1 _ hdroplen).mp hinner
          refine ⟨[], (c :: rest).drop pat.length, by simpa using hsplit.symm, ?_⟩
          have hstep : pyReplaceFuel pat new (fuel2 + 1) (c :: rest)
              = new ++ pyReplaceFuel pat new fuel2 ((c :: rest).drop pat.length) := by
            simp [pyReplaceFuel, hpat, hpre]
          rw [hstep, pyReplaceFuel_of_not_contains pat new hpat fuel2 _ hnc]
          simp
        · have hpre' : pat.isPrefixOf (c :: rest) = false := by
            cases hb : pat.isPrefixOf (c :: rest)
            · rfl
            · exact absurd hb hpre
          have hrest : countOccFuel pat fuel1 rest = 1 := by
            have hc := hcount
            simp only [countOccFuel, hpre', Bool.false_eq_true, if_false] at hc
            exact hc
          have hrestlen : rest.length ≤ fuel1 := by
            simp only [List.length_cons] at hs
            omega
          have hrestf2 : rest.length < fuel2 := by
            simp only [List.length_cons] at hf2
            omega
          obtain ⟨a, b, hab, hrep⟩ := ih rest hrestlen hrest fuel2 hrestf2
          refine ⟨c :: a, b, by simp [hab], ?_⟩
          have hstep : pyReplaceFuel pat new (fuel2 + 1) (c :: rest)
              = c :: pyReplaceFuel pat new fuel2 rest := by
            simp [pyReplaceFuel, hpat, hpre']
          rw [hstep, hrep]
          simp

theorem pyCountStr_zero_not_contains (old content : String) (h : pyCountStr old content = 0) :
    strContains content old = false := by
  by_cases hpat : old.data = []
  · exfalso
    simp [pyCountStr, pyCount, hpat] at h
  · simp only [pyCountStr, pyCount, hpat, if_neg hpat] at h
    exact (countOccFuel_eq_zero_iff old.data hpat content.data.length content.data
      (Nat.le_refl _)).mp h

theorem strContains_of_pyCountStr_ne_zero (old content : String)
    (h : pyCountStr old content ≠ 0) : strContains content old = true := by
  by_cases hpat : old.data = []
  · simpa [strContains, hpat] using listContainsSub_nil_pat content.data
  · cases hb : strContains content old
    · exfalso
      apply h
      simp only [pyCountStr, pyCount, hpat, if_neg hpat]
      exact (countOccFuel_eq_zero_iff old.data hpat content.data.length content.data
        (Nat.le_refl _)).mpr hb
    · rfl

theorem pyCountStr_one_decomp (old new content : String) (h : pyCountStr old content = 1) :
    ∃ a b, content.data = a ++ old.data ++ b
      ∧ (pyReplaceStr old new content).data = a ++ new.data ++ b := by
  by_cases hpat : old.data = []
  · have hcon : content.data = [] := by
      simp [pyCountStr, pyCount, hpat] at h
      exact List.eq_nil_of_length_eq_zero h
    refine ⟨[], [], by simp [hcon, hpat], ?_⟩
    simp [pyReplaceStr, hcon, pyReplaceFuel, hpat]
  · simp only [pyCountStr, pyCount, hpat, if_neg hpat] at h
    obtain ⟨a, b, hab, hrep⟩ := countOccFuel_one_decomp old.data new.data hpat
      content.data.length content.data (Nat.le_refl _) h
      (content.data.length + 1) (Nat.lt_succ_self _)
    exact ⟨a, b, hab, by simpa [pyReplaceStr] using hrep⟩

theorem validate_file_path_ok (resolve : String → Path) (root : Path) (filePath : String)
    (hin : root.isPrefixOf (resolve filePath) = true) (hdeny : denyCheck filePath = none) :
    validate_file_path resolve root filePath = .ok (resolve filePath) := by
  simp [validate_file_path, hin, hdeny]

theorem validate_file_path_outside (resolve : String → Path) (root : Path) (filePath : String)
    (hout : root.isPrefixOf (resolve filePath) = false) :
    validate_file_path resolve root filePath = .error (outsideWorkspaceMsg filePath root) := by
  simp [validate_file_path, hout]

theorem chatLoop_limit (respond : List Msg → ModelResponse) (resolve : String → Path)
    (root : Path) (maxIterations : Nat)
    (hall : ∀ h : List Msg, (respond h).toolCalls ≠ []) :
    ∀ (fuel count : Nat) (history : List Msg) (fs : Fs),
      (chatLoop respond resolve root maxIterations fuel count history fs).1
          = maxIterationsMsg maxIterations
        ∧ (chatLoop respond resolve root maxIterations fuel count history fs).2.1
          = count + fuel := by
  intro fuel
  induction fuel with
  | zero => intro count history fs; exact ⟨rfl, rfl⟩
  | succ fuel ih =>
    intro count history fs
    have hempty : (respond history).toolCalls.isEmpty = false := by
      cases hcalls : (respond history).toolCalls with
      | nil => exact absurd hcalls (hall history)
      | cons x xs => simp
    simp only [chatLoop, hempty, Bool.false_eq_true, if_false]
    refine ⟨(ih (count + 1) _ _).1, ?_⟩
    rw [(ih (count + 1) _ _).2]
    omega

theorem replace_success_eq (resolve : String → Path) (root : Path) (fs : Fs)
    (filePath oldString newString content : String)
    (hin : root.isPrefixOf (resolve filePath) = true)
    (hdeny : denyCheck filePath = none)
    (hfile : lookupFs fs (resolve filePath) = some (.file content))
    (hcount : pyCountStr oldString content = 1) :
    replace_content_tool resolve root fs filePath oldString newString none ""
      = (replaceSuccessMsg (pathName (resolve filePath)) oldString newString
          (pathName (backupPath (resolve filePath))),
        setFs (setFs fs (backupPath (resolve filePath)) (.file content))
          (resolve filePath) (.file (pyReplaceStr oldString newString content))) := by
  have hc := strContains_of_pyCountStr_ne_zero oldString content (by omega)
  simp [replace_content_tool, validate_file_path_ok resolve root filePath hin hdeny,
    hfile, hc, hcount]

theorem replace_failure_eq (resolve : String → Path) (root : Path) (fs : Fs)
    (filePath oldString newString content : String) (err : FileErr) (leftoverContent : String)
    (hin : root.isPrefixOf (resolve filePath) = true)
    (hdeny : denyCheck filePath = none)
    (hfile : lookupFs fs (resolve filePath) = some (.file content))
    (hcount : pyCountStr oldString content = 1) :
    replace_content_tool resolve root fs filePath oldString newString
        (some err) leftoverContent
      = (handle_file_error "replace content in" filePath err,
        eraseFs (setFs (setFs (setFs fs (backupPath (resolve filePath)) (.file content))
            (resolve filePath) (.file leftoverContent))
            (resolve filePath) (.file content))
          (backupPath (resolve filePath))) := by
  have hc := strContains_of_pyCountStr_ne_zero oldString content (by omega)
  simp [replace_content_tool, validate_file_path_ok resolve root filePath hin hdeny,
    hfile, hc, hcount]

theorem replace_notfound_eq (resolve : String → Path) (root : Path) (fs : Fs)
    (filePath oldString newString content : String)
    (writeResult : Option FileErr) (leftoverContent : String)
    (hin : root.isPrefixOf (resolve filePath) = true)
    (hdeny : denyCheck filePath = none)
    (hfile : lookupFs fs (resolve filePath) = some (.file content))
    (hnc : strContains content oldString = false) :
    replace_content_tool resolve root fs filePath oldString newString
        writeResult leftoverContent
      = (replaceNotFoundMsg filePath, fs) := by
  simp [replace_content_tool, validate_file_path_ok resolve root filePath hin hdeny,
    hfile, hnc]

/-! ### Claims -/

/-- Claim C1 (confinement): for every raw path whose canonical resolved
target lies outside the workspace root — the test being that the root's
components are a prefix of the resolved path's components, never a string
comparison — each of the three primitives returns the structured
SecurityError outcome string and leaves the filesystem untouched (the read
outcome is a fixed string independent of any file's content). -/
theorem confinement_outside_workspace (resolve : String → Path) (root : Path) (fs : Fs)
    (filePath : String) (startLine endLine : Option Int)
    (createContent oldString newString : String)
    (writeResult : Option FileErr) (leftoverContent : String)
    (hout : root.isPrefixOf (resolve filePath) = false) :
    read_file_tool resolve root fs filePath startLine endLine
        = handle_file_error "read" filePath (.security (outsideWorkspaceMsg filePath root))
      ∧ create_file_tool resolve root fs filePath createContent
        = (handle_file_error "create" filePath (.security (outsideWorkspaceMsg filePath root)), fs)
      ∧ replace_content_tool resolve root fs filePath oldString newString
          writeResult leftoverContent
        = (handle_file_error "replace content in" filePath
            (.security (outsideWorkspaceMsg filePath root)), fs) := by
  refine ⟨?_, ?_, ?_⟩ <;>
    simp [read_file_tool, create_file_tool, replace_content_tool,
      validate_file_path_outside resolve root filePath hout]

/-- Witness for C1: `/ws` workspace, a path resolving to `/etc/passwd`. -/
theorem confinement_outside_workspace_witness :
    List.isPrefixOf ["ws"] ((fun _ => ["etc", "passwd"]) "../../etc/passwd") = false
      ∧ read_file_tool (fun _ => ["etc", "passwd"]) ["ws"]
          [(["ws", "a.txt"], FsEntry.file "hi")] "../../etc/passwd" none none
        = handle_file_error "read" "../../etc/passwd"
            (.security (outsideWorkspaceMsg "../../etc/passwd" ["ws"])) :=
  ⟨by decide,
    (confinement_outside_workspace (fun _ => ["etc", "passwd"]) ["ws"]
      [(["ws", "a.txt"], FsEntry.file "hi")] "../../etc/passwd" none none "" "" "" none ""
      (by decide)).1⟩

/-- Claim C2 (exact-match discipline): on an existing validated file,
replace succeeds iff `old_string` occurs exactly once (Python `str.count`
semantics): zero occurrences return the not-found error, two or more return
the ambiguous error carrying the exact count, and on both error paths the
filesystem — in particular the file and the absence of any backup — is
unchanged. -/
theorem replace_exact_match_discipline (resolve : String → Path) (root : Path) (fs : Fs)
    (filePath oldString newString content : String)
    (hin : root.isPrefixOf (resolve filePath) = true)
    (hdeny : denyCheck filePath = none)
    (hfile : lookupFs fs (resolve filePath) = some (.file content)) :
    (pyCountStr oldString content = 0 →
      replace_content_tool resolve root fs filePath oldString newString none ""
        = (replaceNotFoundMsg filePath, fs))
    ∧ (2 ≤ pyCountStr oldString content →
      replace_content_tool resolve root fs filePath oldString newString none ""
        = (replaceAmbiguousMsg filePath (pyCountStr oldString content), fs))
    ∧ (pyCountStr oldString content = 1 →
      replace_content_tool resolve root fs filePath oldString newString none ""
        = (replaceSuccessMsg (pathName (resolve filePath)) oldString newString
            (pathName (backupPath (resolve filePath))),
          setFs (setFs fs (backupPath (resolve filePath)) (.file content))
            (resolve filePath) (.file (pyReplaceStr oldString newString content)))) := by
  refine ⟨?_, ?_, ?_⟩
  · intro h0
    have hnc := pyCountStr_zero_not_contains oldString content h0
    simp [replace_content_tool, validate_file_path_ok resolve root filePath hin hdeny,
      hfile, hnc]
  · intro h2
    have hc := strContains_of_pyCountStr_ne_zero oldString content (by omega)
    have h1 : 1 < pyCountStr oldString content := by omega
    simp [replace_content_tool, validate_file_path_ok resolve root filePath hin hdeny,
      hfile, hc, h1]
  · intro h1
    have hc := strContains_of_pyCountStr_ne_zero oldString content (by omega)
    simp [replace_content_tool, validate_file_path_ok resolve root filePath hin hdeny,
      hfile, hc, h1]

/-- Witness for C2: the spec's end-to-end example, `/ws/a.txt` holding
`"foo\nbar\n"`, replacing the unique `"foo"` with `"baz"`. -/
theorem replace_exact_match_discipline_witness :
    List.isPrefixOf ["ws"] ((fun _ => ["ws", "a.txt"]) "a.txt") = true
      ∧ denyCheck "a.txt" = none
      ∧ pyCountStr "foo" "foo\nbar\n" = 1
      ∧ replace_content_tool (fun _ => ["ws", "a.txt"]) ["ws"]
          [(["ws", "a.txt"], FsEntry.file "foo\nbar\n")] "a.txt" "foo" "baz" none ""
        = (replaceSuccessMsg "a.txt" "foo" "baz" "a.txt.backup",
          [(["ws", "a.txt"], FsEntry.file "baz\nbar\n"),
            (["ws", "a.txt.backup"], FsEntry.file "foo\nbar\n")]) :=
  ⟨by decide, by decide, by decide,
    ((replace_exact_match_discipline (fun _ => ["ws", "a.txt"]) ["ws"]
      [(["ws", "a.txt"], FsEntry.file "foo\nbar\n")] "a.txt" "foo" "baz" "foo\nbar\n"
      (by decide) (by decide) (by decide)).2.2 (by decide)).trans (by decide)⟩

/-- Claim C3 (atomicity under write failure): if, on a unique match, the
write of the substituted content fails after the backup copy is taken —
whatever partial content the failed write left behind — the operation
restores the pre-operation content from the backup, removes the backup
file, reports the failure as a structured error outcome, and touches no
other filesystem entry. -/
theorem replace_write_failure_atomic (resolve : String → Path) (root : Path) (fs : Fs)
    (filePath oldString newString content : String) (err : FileErr) (leftoverContent : String)
    (hin : root.isPrefixOf (resolve filePath) = true)
    (hdeny : denyCheck filePath = none)
    (hfile : lookupFs fs (resolve filePath) = some (.file content))
    (hcount : pyCountStr oldString content = 1) :
    (replace_content_tool resolve root fs filePath oldString newString
        (some err) leftoverContent).1
        = handle_file_error "replace content in" filePath err
      ∧ lookupFs (replace_content_tool resolve root fs filePath oldString newString
          (some err) leftoverContent).2 (resolve filePath) = some (.file content)
      ∧ lookupFs (replace_content_tool resolve root fs filePath oldString newString
          (some err) leftoverContent).2 (backupPath (resolve filePath)) = none
      ∧ ∀ q : Path, q ≠ resolve filePath → q ≠ backupPath (resolve filePath) →
          lookupFs (replace_content_tool resolve root fs filePath oldString newString
            (some err) leftoverContent).2 q = lookupFs fs q := by
  rw [replace_failure_eq resolve root fs filePath oldString newString content err
    leftoverContent hin hdeny hfile hcount]
  have hne : backupPath (resolve filePath) ≠ resolve filePath := backupPath_ne _
  refine ⟨rfl, ?_, ?_, ?_⟩
  · rw [lookupFs_eraseFs_ne _ _ (fun h => hne h.symm), lookupFs_setFs_self]
  · exact lookupFs_eraseFs_self _ _
  · intro q hqp hqbp
    rw [lookupFs_eraseFs_ne _ _ hqbp, lookupFs_setFs_ne _ _ _ _ hqp,
      lookupFs_setFs_ne _ _ _ _ hqp, lookupFs_setFs_ne _ _ _ _ hqbp]

/-- Witness for C3: a failing write (disk full) on the spec's example file
leaves the original content in place and no backup behind. -/
theorem replace_write_failure_atomic_witness :
    pyCountStr "foo" "foo\nbar\n" = 1
      ∧ lookupFs (replace_content_tool (fun _ => ["ws", "a.txt"]) ["ws"]
          [(["ws", "a.txt"], FsEntry.file "foo\nbar\n")] "a.txt" "foo" "baz"
          (some (.osError "No space left on device")) "fo").2 ["ws", "a.txt"]
        = some (FsEntry.file "foo\nbar\n") :=
  ⟨by decide,
    (replace_write_failure_atomic (fun _ => ["ws", "a.txt"]) ["ws"]
      [(["ws", "a.txt"], FsEntry.file "foo\nbar\n")] "a.txt" "foo" "baz" "foo\nbar\n"
      (.osError "No space left on device") "fo"
      (by decide) (by decide) (by decide) (by decide)).2.1⟩

/-- Counterexample to claim C5: after a *successful* replace the code keeps
the backup (`shutil.copy2` before the write, no `unlink` on the success
path), so a `.backup` file does persist after the invocation returns. -/
theorem backup_persists_after_success_counterexample :
    lookupFs (replace_content_tool (fun _ => ["ws", "a.txt"]) ["ws"]
        [(["ws", "a.txt"], FsEntry.file "foo\nbar\n")] "a.txt" "foo" "baz" none "").2
        ["ws", "a.txt.backup"]
      = some (FsEntry.file "foo\nbar\n") := by
  decide

/-- Claim C5 as amended: the backup is deleted only on the write-failure
path (where it is first used to restore the original); on verified success
it is retained, holding the pre-edit content. -/
theorem backup_lifecycle (resolve : String → Path) (root : Path) (fs : Fs)
    (filePath oldString newString content : String) (err : FileErr) (leftoverContent : String)
    (hin : root.isPrefixOf (resolve filePath) = true)
    (hdeny : denyCheck filePath = none)
    (hfile : lookupFs fs (resolve filePath) = some (.file content))
    (hcount : pyCountStr oldString content = 1) :
    lookupFs (replace_content_tool resolve root fs filePath oldString newString
        (some err) leftoverContent).2 (backupPath (resolve filePath)) = none
      ∧ lookupFs (replace_content_tool resolve root fs filePath oldString newString
          none "").2 (backupPath (resolve filePath)) = some (.file content) := by
  constructor
  · rw [replace_failure_eq resolve root fs filePath oldString newString content err
      leftoverContent hin hdeny hfile hcount]
    exact lookupFs_eraseFs_self _ _
  · rw [replace_success_eq resolve root fs filePath oldString newString content
      hin hdeny hfile hcount]
    have hne : backupPath (resolve filePath) ≠ resolve filePath := backupPath_ne _
    rw [lookupFs_setFs_ne _ _ _ _ hne, lookupFs_setFs_self]

/-- Witness for C5 (amended): both lifecycle branches on the example file. -/
theorem backup_lifecycle_witness :
    pyCountStr "foo" "foo\nbar\n" = 1
      ∧ lookupFs (replace_content_tool (fun _ => ["ws", "a.txt"]) ["ws"]
          [(["ws", "a.txt"], FsEntry.file "foo\nbar\n")] "a.txt" "foo" "baz"
          (some (.osError "Input output error")) "").2 ["ws", "a.txt.backup"]
        = none :=
  ⟨by decide,
    (backup_lifecycle (fun _ => ["ws", "a.txt"]) ["ws"]
      [(["ws", "a.txt"], FsEntry.file "foo\nbar\n")] "a.txt" "foo" "baz" "foo\nbar\n"
      (.osError "Input output error") ""
      (by decide) (by decide) (by decide) (by decide)).1⟩

/-- Claim C6 (successful replace): on a unique match the file afterwards
holds the original content with that single occurrence of `old_string`
substituted by `new_string`, the `.backup`-suffixed sibling still exists
holding the pre-edit content, the success message reports the backup's
name, and — when `old_string` no longer occurs in the post-edit content — a
second identical call fails with the not-found error and changes nothing. -/
theorem replace_success_effects (resolve : String → Path) (root : Path) (fs : Fs)
    (filePath oldString newString content : String)
    (hin : root.isPrefixOf (resolve filePath) = true)
    (hdeny : denyCheck filePath = none)
    (hfile : lookupFs fs (resolve filePath) = some (.file content))
    (hcount : pyCountStr oldString content = 1)
    (hgone : strContains (pyReplaceStr oldString newString content) oldString = false) :
    replace_content_tool resolve root fs filePath oldString newString none ""
        = (replaceSuccessMsg (pathName (resolve filePath)) oldString newString
            (pathName (backupPath (resolve filePath))),
          setFs (setFs fs (backupPath (resolve filePath)) (.file content))
            (resolve filePath) (.file (pyReplaceStr oldString newString content)))
      ∧ lookupFs (setFs (setFs fs (backupPath (resolve filePath)) (.file content))
          (resolve filePath) (.file (pyReplaceStr oldString newString content)))
          (resolve filePath)
        = some (.file (pyReplaceStr oldString newString content))
      ∧ (∃ a b, content.data = a ++ oldString.data ++ b
          ∧ (pyReplaceStr oldString newString content).data = a ++ newString.data ++ b)
      ∧ lookupFs (setFs (setFs fs (backupPath (resolve filePath)) (.file content))
          (resolve filePath) (.file (pyReplaceStr oldString newString content)))
          (backupPath (resolve filePath))
        = some (.file content)
      ∧ pathName (backupPath (resolve filePath)) = pathName (resolve filePath) ++ ".backup"
      ∧ replace_content_tool resolve root
          (setFs (setFs fs (backupPath (resolve filePath)) (.file content))
            (resolve filePath) (.file (pyReplaceStr oldString newString content)))
          filePath oldString newString none ""
        = (replaceNotFoundMsg filePath,
          setFs (setFs fs (backupPath (resolve filePath)) (.file content))
            (resolve filePath) (.file (pyReplaceStr oldString newString content))) := by
  have hne : backupPath (resolve filePath) ≠ resolve filePath := backupPath_ne _
  have hfile2 : lookupFs (setFs (setFs fs (backupPath (resolve filePath)) (.file content))
      (resolve filePath) (.file (pyReplaceStr oldString newString content)))
      (resolve filePath)
      = some (.file (pyReplaceStr oldString newString content)) :=
    lookupFs_setFs_self _ _ _
  refine ⟨replace_success_eq resolve root fs filePath oldString newString content
      hin hdeny hfile hcount,
    hfile2,
    pyCountStr_one_decomp oldString newString content hcount,
    ?_, ?_, ?_⟩
  · rw [lookupFs_setFs_ne _ _ _ _ hne, lookupFs_setFs_self]
  · simp only [backupPath, pathName, List.getLastD_concat]
  · exact replace_notfound_eq resolve root _ filePath oldString newString
      (pyReplaceStr oldString newString content) none "" hin hdeny hfile2 hgone

/-- Witness for C6: the spec's example — after replacing the unique `"foo"`
by `"baz"` in `/ws/a.txt`, an identical second call reports not-found and
leaves the filesystem (edited file plus retained backup) unchanged. -/
theorem replace_success_effects_witness :
    pyCountStr "foo" "foo\nbar\n" = 1
      ∧ strContains (pyReplaceStr "foo" "baz" "foo\nbar\n") "foo" = false
      ∧ replace_content_tool (fun _ => ["ws", "a.txt"]) ["ws"]
          [(["ws", "a.txt"], FsEntry.file "baz\nbar\n"),
            (["ws", "a.txt.backup"], FsEntry.file "foo\nbar\n")]
          "a.txt" "foo" "baz" none ""
        = (replaceNotFoundMsg "a.txt",
          [(["ws", "a.txt"], FsEntry.file "baz\nbar\n"),
            (["ws", "a.txt.backup"], FsEntry.file "foo\nbar\n")]) :=
  ⟨by decide, by decide,
    (replace_success_effects (fun _ => ["ws", "a.txt"]) ["ws"]
      [(["ws", "a.txt"], FsEntry.file "foo\nbar\n")] "a.txt" "foo" "baz" "foo\nbar\n"
      (by decide) (by decide) (by decide) (by decide) (by decide)).2.2.2.2.2⟩

/-- Claim C10 (empty `old_string`): Python's `"" in s` is always true and
`s.count("")` is `len(s) + 1`, so on a non-empty file of length `L` the call
returns the ambiguous error reporting `L + 1` occurrences and changes
nothing, while on an empty file it succeeds (`"".replace("", new)` is `new`),
creates the backup, and leaves exactly `new_string` in the file. -/
theorem replace_empty_old_string (resolve : String → Path) (root : Path) (fs : Fs)
    (filePath newString content : String)
    (hin : root.isPrefixOf (resolve filePath) = true)
    (hdeny : denyCheck filePath = none)
    (hfile : lookupFs fs (resolve filePath) = some (.file content)) :
    (content ≠ "" →
      replace_content_tool resolve root fs filePath "" newString none ""
        = (replaceAmbiguousMsg filePath (content.length + 1), fs))
    ∧ (content = "" →
      replace_content_tool resolve root fs filePath "" newString none ""
        = (replaceSuccessMsg (pathName (resolve filePath)) "" newString
            (pathName (backupPath (resolve filePath))),
          setFs (setFs fs (backupPath (resolve filePath)) (.file ""))
            (resolve filePath) (.file newString))) := by
  constructor
  · intro hne
    obtain ⟨cs⟩ := content
    have hcs : cs ≠ [] := by
      intro h
      subst h
      exact hne rfl
    have hlen : 0 < cs.length := List.length_pos.mpr hcs
    have hcontains : strContains (String.mk cs) "" = true := by
      simpa [strContains] using listContainsSub_nil_pat cs
    have hcount : pyCountStr "" (String.mk cs) = cs.length + 1 := by
      simp [pyCountStr, pyCount]
    have hgt : 1 < pyCountStr "" (String.mk cs) := by
      rw [hcount]
      omega
    simp [replace_content_tool, validate_file_path_ok resolve root filePath hin hdeny,
      hfile, hcontains, hgt, hcount, String.length]
    intro h
    exact absurd h hcs
  · intro hempty
    subst hempty
    have hrep : pyReplaceStr "" newString "" = newString := rfl
    have hcount : pyCountStr "" "" = 1 := by decide
    rw [replace_success_eq resolve root fs filePath "" newString ""
      hin hdeny hfile hcount, hrep]

/-- Witness for C10: both branches — a 5-character file yields the
6-occurrence ambiguous error; an empty file ends up holding `new_string`. -/
theorem replace_empty_old_string_witness :
    ("hello" : String) ≠ ""
      ∧ replace_content_tool (fun _ => ["ws", "a.txt"]) ["ws"]
          [(["ws", "a.txt"], FsEntry.file "hello")] "a.txt" "" "X" none ""
        = (replaceAmbiguousMsg "a.txt" 6, [(["ws", "a.txt"], FsEntry.file "hello")])
      ∧ replace_content_tool (fun _ => ["ws", "e.txt"]) ["ws"]
          [(["ws", "e.txt"], FsEntry.file "")] "e.txt" "" "X" none ""
        = (replaceSuccessMsg "e.txt" "" "X" "e.txt.backup",
          [(["ws", "e.txt"], FsEntry.file "X"), (["ws", "e.txt.backup"], FsEntry.file "")]) :=
  ⟨by decide,
    (replace_empty_old_string (fun _ => ["ws", "a.txt"]) ["ws"]
      [(["ws", "a.txt"], FsEntry.file "hello")] "a.txt" "X" "hello"
      (by decide) (by decide) (by decide)).1 (by decide),
    (replace_empty_old_string (fun _ => ["ws", "e.txt"]) ["ws"]
      [(["ws", "e.txt"], FsEntry.file "")] "e.txt" "X" ""
      (by decide) (by decide) (by decide)).2 rfl⟩

/-- Claim C4 (loop termination): when every reasoning response carries at
least one tool call, `chat` performs exactly `max_iterations` iterations
(in particular exactly `10` with the source's default) and returns the
iteration-limit message as an ordinary value; when the first response
carries no tool calls, it terminates after exactly one iteration returning
that response's content. -/
theorem chat_loop_termination (respond : List Msg → ModelResponse) (resolve : String → Path)
    (root : Path) (fs : Fs) (conversationHistory : List Msg) (userMessage : String)
    (maxIterations : Nat) :
    ((∀ h : List Msg, (respond h).toolCalls ≠ []) →
      (chat respond resolve root fs conversationHistory userMessage maxIterations).1
          = maxIterationsMsg maxIterations
        ∧ (chat respond resolve root fs conversationHistory userMessage maxIterations).2.1
          = maxIterations
        ∧ (chat respond resolve root fs conversationHistory userMessage 10).2.1 = 10)
    ∧ ((respond (initialHistory root conversationHistory userMessage)).toolCalls = [] →
      1 ≤ maxIterations →
      (chat respond resolve root fs conversationHistory userMessage maxIterations).1
          = (respond (initialHistory root conversationHistory userMessage)).content
        ∧ (chat respond resolve root fs conversationHistory userMessage maxIterations).2.1
          = 1) := by
  constructor
  · intro hall
    refine ⟨(chatLoop_limit respond resolve root maxIterations hall maxIterations 0 _ _).1,
      ?_, ?_⟩
    · have h := (chatLoop_limit respond resolve root maxIterations hall maxIterations 0
        (initialHistory root conversationHistory userMessage) fs).2
      simpa [chat] using h
    · have h := (chatLoop_limit respond resolve root 10 hall 10 0
        (initialHistory root conversationHistory userMessage) fs).2
      simpa [chat] using h
  · intro hfinal hpos
    cases maxIterations with
    | zero => omega
    | succ m =>
      have hempty : (respond (initialHistory root conversationHistory
          userMessage)).toolCalls.isEmpty = true := by
        simp [hfinal]
      constructor
      · simp [chat, chatLoop, hempty]
      · simp [chat, chatLoop, hempty]

/-- Witness for C4: a scripted caller that always requests a tool call hits
the ceiling of 3 after exactly 3 iterations; a caller answering at once
finishes in one iteration. -/
theorem chat_loop_termination_witness :
    (chat (fun _ => ⟨"again", [⟨"c1", "read_file", .readFileArgs "a.txt" none none⟩]⟩)
        (fun _ => ["ws"]) ["ws"] [] [] "hi" 3).1 = maxIterationsMsg 3
      ∧ (chat (fun _ => ⟨"done", []⟩) (fun _ => ["ws"]) ["ws"] [] [] "hi" 3).1 = "done"
      ∧ (chat (fun _ => ⟨"done", []⟩) (fun _ => ["ws"]) ["ws"] [] [] "hi" 3).2.1 = 1 :=
  ⟨((chat_loop_termination
      (fun _ => ⟨"again", [⟨"c1", "read_file", .readFileArgs "a.txt" none none⟩]⟩)
      (fun _ => ["ws"]) ["ws"] [] [] "hi" 3).1
      (fun _ => List.cons_ne_nil _ _)).1,
    ((chat_loop_termination (fun _ => ⟨"done", []⟩)
      (fun _ => ["ws"]) ["ws"] [] [] "hi" 3).2 rfl (by decide)).1,
    ((chat_loop_termination (fun _ => ⟨"done", []⟩)
      (fun _ => ["ws"]) ["ws"] [] [] "hi" 3).2 rfl (by decide)).2⟩

/-- Claim C8 (no-overwrite guarantee): creating at a validated path whose
target exists returns the AlreadyExists-style error and leaves the whole
filesystem — in particular that file's content — untouched; when the target
is absent (and its ancestors are creatable as directories) it creates the
missing parent directories and writes exactly the given content. -/
theorem create_no_overwrite (resolve : String → Path) (root : Path) (fs : Fs)
    (filePath content : String)
    (hin : root.isPrefixOf (resolve filePath) = true)
    (hdeny : denyCheck filePath = none) :
    ((lookupFs fs (resolve filePath)).isSome →
      create_file_tool resolve root fs filePath content = (createExistsMsg filePath, fs))
    ∧ (lookupFs fs (resolve filePath) = none →
      (∀ q ∈ ancestorsOf (resolve filePath), isFileAt fs q = false) →
      create_file_tool resolve root fs filePath content
          = (createSuccessMsg (pathName (resolve filePath)) content,
            setFs (mkdirParents fs (ancestorsOf (resolve filePath)))
              (resolve filePath) (.file content))
        ∧ lookupFs (create_file_tool resolve root fs filePath content).2 (resolve filePath)
          = some (.file content)) := by
  constructor
  · intro hsome
    simp [create_file_tool, validate_file_path_ok resolve root filePath hin hdeny, hsome]
  · intro hnone hanc
    have hany : (ancestorsOf (resolve filePath)).any (isFileAt fs) = false := by
      rw [List.any_eq_false]
      intro q hq
      simp [hanc q hq]
    have heq : create_file_tool resolve root fs filePath content
        = (createSuccessMsg (pathName (resolve filePath)) content,
          setFs (mkdirParents fs (ancestorsOf (resolve filePath)))
            (resolve filePath) (.file content)) := by
      simp [create_file_tool, validate_file_path_ok resolve root filePath hin hdeny,
        hnone, hany]
    exact ⟨heq, by rw [heq]; exact lookupFs_setFs_self _ _ _⟩

/-- Witness for C8: creating over the existing `/ws/a.txt` fails and leaves
it untouched; creating the fresh `/ws/sub/n.txt` writes its content. -/
theorem create_no_overwrite_witness :
    (lookupFs [(["ws", "a.txt"], FsEntry.file "old")] ["ws", "a.txt"]).isSome = true
      ∧ create_file_tool (fun _ => ["ws", "a.txt"]) ["ws"]
          [(["ws", "a.txt"], FsEntry.file "old")] "a.txt" "new"
        = (createExistsMsg "a.txt", [(["ws", "a.txt"], FsEntry.file "old")])
      ∧ lookupFs (create_file_tool (fun _ => ["ws", "sub", "n.txt"]) ["ws"]
          [(["ws", "a.txt"], FsEntry.file "old")] "sub/n.txt" "hi").2 ["ws", "sub", "n.txt"]
        = some (FsEntry.file "hi") :=
  ⟨by decide,
    (create_no_overwrite (fun _ => ["ws", "a.txt"]) ["ws"]
      [(["ws", "a.txt"], FsEntry.file "old")] "a.txt" "new"
      (by decide) (by decide)).1 (by decide),
    ((create_no_overwrite (fun _ => ["ws", "sub", "n.txt"]) ["ws"]
      [(["ws", "a.txt"], FsEntry.file "old")] "sub/n.txt" "hi"
      (by decide) (by decide)).2 (by decide) (by decide)).2⟩

/-- Claim C9 (denylist): whenever the lower-cased original path string
contains one of `/etc/`, `/usr/`, `/var/`, `/root/`, `/home/`, `passwd`,
`shadow`, `hosts`, `.ssh/`, or contains `../` without also containing
`.env.local`, validation fails with a SecurityError — regardless of where
the path would canonically resolve — and every primitive returns the
structured security outcome leaving the filesystem untouched. -/
theorem denylist_rejection (resolve : String → Path) (root : Path) (fs : Fs)
    (filePath : String) (startLine endLine : Option Int)
    (createContent oldString newString : String)
    (writeResult : Option FileErr) (leftoverContent : String)
    (hpat : (strContains (pyLower filePath) "/etc/"
        || strContains (pyLower filePath) "/usr/"
        || strContains (pyLower filePath) "/var/"
        || strContains (pyLower filePath) "/root/"
        || strContains (pyLower filePath) "/home/"
        || strContains (pyLower filePath) "passwd"
        || strContains (pyLower filePath) "shadow"
        || strContains (pyLower filePath) "hosts"
        || strContains (pyLower filePath) ".ssh/"
        || (strContains (pyLower filePath) "../"
            && !strContains (pyLower filePath) ".env.local")) = true) :
    ∃ reason, validate_file_path resolve root filePath = .error reason
      ∧ read_file_tool resolve root fs filePath startLine endLine
        = handle_file_error "read" filePath (.security reason)
      ∧ create_file_tool resolve root fs filePath createContent
        = (handle_file_error "create" filePath (.security reason), fs)
      ∧ replace_content_tool resolve root fs filePath oldString newString
          writeResult leftoverContent
        = (handle_file_error "replace content in" filePath (.security reason), fs) := by
  have hval : ∃ reason, validate_file_path resolve root filePath = .error reason := by
    cases hroot : List.isPrefixOf root (resolve filePath) with
    | false =>
      exact ⟨outsideWorkspaceMsg filePath root,
        validate_file_path_outside resolve root filePath hroot⟩
    | true =>
      have hsome : (denyCheck filePath).isSome := by
        rw [denyCheck, List.find?_isSome]
        simp only [Bool.or_eq_true, Bool.and_eq_true] at hpat
        rcases hpat with ((((((((h | h) | h) | h) | h) | h) | h) | h) | h) | h
        · exact ⟨"/etc/", by simp [dangerousPatterns], by simp [h]⟩
        · exact ⟨"/usr/", by simp [dangerousPatterns], by simp [h]⟩
        · exact ⟨"/var/", by simp [dangerousPatterns], by simp [h]⟩
        · exact ⟨"/root/", by simp [dangerousPatterns], by simp [h]⟩
        · exact ⟨"/home/", by simp [dangerousPatterns], by simp [h]⟩
        · exact ⟨"passwd", by simp [dangerousPatterns], by simp [h]⟩
        · exact ⟨"shadow", by simp [dangerousPatterns], by simp [h]⟩
        · exact ⟨"hosts", by simp [dangerousPatterns], by simp [h]⟩
        · exact ⟨".ssh/", by simp [dangerousPatterns], by simp [h]⟩
        · exact ⟨"../", by simp [dangerousPatterns], by simp [h.1, h.2]⟩
      obtain ⟨pat, hfind⟩ := Option.isSome_iff_exists.mp hsome
      exact ⟨dangerousPatternMsg pat, by simp [validate_file_path, hroot, hfind]⟩
  obtain ⟨reason, hreason⟩ := hval
  refine ⟨reason, hreason, ?_, ?_, ?_⟩ <;>
    simp [read_file_tool, create_file_tool, replace_content_tool, hreason]

/-- Witness for C9: `/etc/passwd` is rejected by the denylist even with a
resolver that would land it inside the workspace. -/
theorem denylist_rejection_witness :
    (strContains (pyLower "/etc/passwd") "/etc/"
        || strContains (pyLower "/etc/passwd") "/usr/"
        || strContains (pyLower "/etc/passwd") "/var/"
        || strContains (pyLower "/etc/passwd") "/root/"
        || strContains (pyLower "/etc/passwd") "/home/"
        || strContains (pyLower "/etc/passwd") "passwd"
        || strContains (pyLower "/etc/passwd") "shadow"
        || strContains (pyLower "/etc/passwd") "hosts"
        || strContains (pyLower "/etc/passwd") ".ssh/"
        || (strContains (pyLower "/etc/passwd") "../"
            && !strContains (pyLower "/etc/passwd") ".env.local")) = true
      ∧ read_file_tool (fun _ => ["ws", "x"]) ["ws"] [] "/etc/passwd" none none
        = handle_file_error "read" "/etc/passwd"
            (.security (dangerousPatternMsg "/etc/")) := by
  refine ⟨by decide, ?_⟩
  obtain ⟨reason, hval, hread, _hcreate, _hreplace⟩ :=
    denylist_rejection (fun _ => ["ws", "x"]) ["ws"] [] "/etc/passwd" none none
      "" "" "" none "" (by decide)
  have hval' : validate_file_path (fun _ => ["ws", "x"]) ["ws"] "/etc/passwd"
      = .error (dangerousPatternMsg "/etc/") := by rfl
  rw [hval'] at hval
  have hr : reason = dangerousPatternMsg "/etc/" := by
    cases hval
    rfl
  rw [hr] at hread
  exact hread

theorem pySlice_in_range {α : Type} (xs : List α) (a b : Int)
    (ha : 0 ≤ a) (hab : a ≤ xs.length) (hb0 : 0 ≤ b) (hb : b ≤ xs.length) :
    pySlice xs a b = (xs.drop a.toNat).take (b - a).toNat := by
  simp only [pySlice]
  rw [if_neg (by omega), if_neg (by omega), min_eq_left hab, min_eq_left hb]

theorem pySlice_full {α : Type} (xs : List α) : pySlice xs 0 (xs.length : Int) = xs := by
  rw [pySlice_in_range xs 0 xs.length (by omega) (by omega) (by omega) (by omega)]
  simp

/-- Counterexample to claim C7 as stated: `start_line = 0` is outside
`[1, total_lines]`, yet on a 5-line file the read returns a full-content
success rather than a range error — Python truthiness (`if start_line`)
treats a `0` bound as an omitted one. -/
theorem read_range_zero_counterexample :
    read_file_tool (fun _ => ["ws", "a.txt"]) ["ws"]
        [(["ws", "a.txt"], FsEntry.file "l1\nl2\nl3\nl4\nl5\n")] "a.txt" (some 0) none
      = "Successfully read a.txt (5 lines)\nContent:\nl1\nl2\nl3\nl4\nl5\n" := by
  decide

/-- Claim C7 as amended: line bounds are 1-based and inclusive; a *nonzero*
`start_line` outside `[1, total_lines]` yields the start range error
(whatever `end_line` is), an `end_line` greater than `total_lines` yields
the end range error, and in-range positive bounds return exactly lines
`start_line` through `end_line` with their count; a bound equal to `0`
however is treated as if it were omitted (and on a non-empty file changes
nothing about the result), rather than being rejected. -/
theorem read_line_range (resolve : String → Path) (root : Path) (fs : Fs)
    (filePath content : String)
    (hin : root.isPrefixOf (resolve filePath) = true)
    (hdeny : denyCheck filePath = none)
    (hfile : lookupFs fs (resolve filePath) = some (.file content)) :
    (∀ s : Int, s ≠ 0 → (s < 0 ∨ ((pyReadlinesStr content).length : Int) < s) →
      ∀ e : Option Int, read_file_tool resolve root fs filePath (some s) e
        = startRangeMsg (some s) (pyReadlinesStr content).length)
    ∧ (∀ s e : Int, 1 ≤ s → s ≤ (pyReadlinesStr content).length →
        ((pyReadlinesStr content).length : Int) < e →
      read_file_tool resolve root fs filePath (some s) (some e)
        = endRangeMsg (some e) (pyReadlinesStr content).length)
    ∧ (∀ s e : Int, 1 ≤ s → s ≤ (pyReadlinesStr content).length →
        1 ≤ e → e ≤ (pyReadlinesStr content).length →
      read_file_tool resolve root fs filePath (some s) (some e)
        = readSuccessMsg (pathName (resolve filePath))
            (((pyReadlinesStr content).drop (s - 1).toNat).take (e - s + 1).toNat))
    ∧ (1 ≤ (pyReadlinesStr content).length →
      (∀ e : Option Int, read_file_tool resolve root fs filePath (some 0) e
          = read_file_tool resolve root fs filePath none e)
        ∧ (∀ s : Option Int, read_file_tool resolve root fs filePath s (some 0)
          = read_file_tool resolve root fs filePath s none))
    ∧ (∀ s e : Int, 1 ≤ s → s ≤ (pyReadlinesStr content).length → e < 0 →
      read_file_tool resolve root fs filePath (some s) (some e)
        = readSuccessMsg (pathName (resolve filePath))
            (pySlice (pyReadlinesStr content) (s - 1) e)) := by
  have hvr := validate_file_path_ok resolve root filePath hin hdeny
  refine ⟨?_, ?_, ?_, ?_, ?_⟩
  · intro s hs0 hrange e
    have hcond : (s - 1 < 0 ∨ ((pyReadlinesStr content).length : Int) ≤ s - 1) := by omega
    simp [read_file_tool, hvr, hfile, hs0, hcond]
    intro h1 h2
    exfalso
    rcases hcond with h | h <;> omega
  · intro s e h1s hsT hTe
    have hs0 : s ≠ 0 := by omega
    have he0 : e ≠ 0 := by omega
    simp [read_file_tool, hvr, hfile, hs0, he0, hTe]
    intro h
    exfalso
    rcases h with h | h <;> omega
  · intro s e h1s hsT h1e heT
    have hs0 : s ≠ 0 := by omega
    have he0 : e ≠ 0 := by omega
    have hend : ¬(((pyReadlinesStr content).length : Int) < e) := by omega
    have hslice : pySlice (pyReadlinesStr content) (s - 1) e
        = ((pyReadlinesStr content).drop (s - 1).toNat).take (e - s + 1).toNat := by
      rw [pySlice_in_range _ _ _ (by omega) (by omega) (by omega) (by omega)]
      have harith : e - (s - 1) = e - s + 1 := by omega
      rw [harith]
    simp [read_file_tool, hvr, hfile, hs0, he0, hend, hslice]
    intro h
    exfalso
    rcases h with h | h <;> omega
  · intro hT
    have hnil : pyReadlinesStr content ≠ [] := by
      intro h
      rw [h] at hT
      simp at hT
    have hT0 : ¬(((pyReadlinesStr content).length : Int) ≤ 0) := by
      have := List.length_pos.mpr hnil
      omega
    constructor
    · intro e
      cases e with
      | none =>
        simp [read_file_tool, hvr, hfile, hT0, hnil, pySlice_full]
      | some ev =>
        simp [read_file_tool, hvr, hfile, hT0, hnil]
    · intro s
      cases s with
      | none =>
        simp [read_file_tool, hvr, hfile, hT0, hnil, pySlice_full]
      | some sv =>
        simp [read_file_tool, hvr, hfile, hT0, hnil]
  · intro s e h1s hsT heneg
    have hs0 : s ≠ 0 := by omega
    have he0 : e ≠ 0 := by omega
    have hend : ¬(((pyReadlinesStr content).length : Int) < e) := by omega
    simp [read_file_tool, hvr, hfile, hs0, he0, hend]
    intro h
    exfalso
    rcases h with h | h <;> omega

/-- Witness for C7 (amended): on the 5-line file, `start_line = 2, end_line
= 3` returns exactly lines 2–3 (with their count), and `start_line = 10`
returns the start range error. -/
theorem read_line_range_witness :
    read_file_tool (fun _ => ["ws", "a.txt"]) ["ws"]
        [(["ws", "a.txt"], FsEntry.file "l1\nl2\nl3\nl4\nl5\n")] "a.txt" (some 2) (some 3)
      = readSuccessMsg "a.txt" ["l2\n", "l3\n"]
      ∧ read_file_tool (fun _ => ["ws", "a.txt"]) ["ws"]
          [(["ws", "a.txt"], FsEntry.file "l1\nl2\nl3\nl4\nl5\n")] "a.txt" (some 10) none
        = startRangeMsg (some 10) 5 :=
  ⟨(read_line_range (fun _ => ["ws", "a.txt"]) ["ws"]
      [(["ws", "a.txt"], FsEntry.file "l1\nl2\nl3\nl4\nl5\n")] "a.txt" "l1\nl2\nl3\nl4\nl5\n"
      (by decide) (by decide) (by decide)).2.2.1 2 3
      (by decide) (by decide) (by decide) (by decide),
    (read_line_range (fun _ => ["ws", "a.txt"]) ["ws"]
      [(["ws", "a.txt"], FsEntry.file "l1\nl2\nl3\nl4\nl5\n")] "a.txt" "l1\nl2\nl3\nl4\nl5\n"
      (by decide) (by decide) (by decide)).1 10 (by decide) (by decide) none⟩

end SecureAgent
